import Mathlib

/-!
Verification of the go-ll FFI wrapper around the dkls23-ll protocol engine:
session state machines for distributed key generation and threshold signing,
their message envelope and routing, and the error translation layer.

The wrapper source (src/wrapper/go-ll/src) is embedded directly.  The
protocol engine (the dkls23_ll crate: dkg::State, dsg::State, the
per-round handlers, the CBOR serializer) is an opaque collaborator of the
wrapper; it is represented by oracle parameters and by payload types
modelled from the spec where noted.
-/

namespace Dkls

/-- Error value crossing the FFI boundary: human-readable text plus a
numeric code (GoError in lib.rs). -/
structure GoError where
  message : String
  code : Int
deriving DecidableEq, Repr

/-- Wire envelope of one protocol message (Message in message.rs).
The ByteBuffer payload is modelled as its byte list. -/
structure Message where
  from_id : Nat
  to_id : Nat
  payload : List Nat
deriving DecidableEq, Repr

/-- Routing metadata derived from a payload type (trait MessageRouting). -/
class MessageRouting (α : Type) where
  src_party_id : α → Nat
  dst_party_id : α → Option Nat

/-- Serialization of a payload to bytes (ciborium encode, black box). -/
class SerializePayload (α : Type) where
  encode : α → List Nat

/-- Deserialization of a payload from bytes (ciborium decode, black box). -/
class DeserializePayload (α : Type) where
  decode : List Nat → Except String α

/-- Message::new — derives the envelope from the payload's routing
metadata; a missing destination becomes the broadcast sentinel 255. -/
def Message.new {α : Type} [SerializePayload α] [MessageRouting α] (payload : α) : Message :=
  { from_id := MessageRouting.src_party_id payload
    to_id := (MessageRouting.dst_party_id payload).getD 255
    payload := SerializePayload.encode payload }

/-- Message::decode — deserializes the payload bytes. -/
def Message.decode {α : Type} [DeserializePayload α] (m : Message) : Except String α :=
  DeserializePayload.decode m.payload

/-- Message::decode_vector — all-or-nothing batch decode; the first
failing message fails the whole batch (Rust iterator collect). -/
def Message.decode_vector {α : Type} [DeserializePayload α] : List Message → Except String (List α)
  | [] => .ok []
  | m :: rest =>
    match (Message.decode m : Except String α) with
    | .error e => .error e
    | .ok v =>
      match (Message.decode_vector rest : Except String (List α)) with
      | .error e => .error e
      | .ok vs => .ok (v :: vs)

/-- Message::encode_vector — wraps each payload in an envelope. -/
def Message.encode_vector {α : Type} [SerializePayload α] [MessageRouting α]
    (msgs : List α) : List Message :=
  msgs.map Message.new

/-! ### Protocol message payload types

Modelled from the spec: the concrete payload types live in the dkls23_ll
core crate, not in the wrapper.  The wrapper only relies on each carrying
its sender id (and, for rounds 2 and 3, a receiver id); the remaining
cryptographic content is opaque and modelled as a byte list. -/

/-- Modelled from the spec: DKG round-1 payload (dkg::KeygenMsg1) — sender
id plus opaque cryptographic content. -/
structure KeygenMsg1 where
  from_id : Nat
  body : List Nat
deriving DecidableEq, Repr

/-- Modelled from the spec: DKG round-2 payload (dkg::KeygenMsg2) —
point-to-point, carrying sender and receiver ids. -/
structure KeygenMsg2 where
  from_id : Nat
  to_id : Nat
  body : List Nat
deriving DecidableEq, Repr

/-- Modelled from the spec: DKG round-3 payload (dkg::KeygenMsg3) —
point-to-point, carrying sender and receiver ids. -/
structure KeygenMsg3 where
  from_id : Nat
  to_id : Nat
  body : List Nat
deriving DecidableEq, Repr

/-- Modelled from the spec: DKG round-4 payload (dkg::KeygenMsg4) — sender
id plus opaque cryptographic content. -/
structure KeygenMsg4 where
  from_id : Nat
  body : List Nat
deriving DecidableEq, Repr

/-- Modelled from the spec: DSG round-1 payload (dsg::SignMsg1). -/
structure SignMsg1 where
  from_id : Nat
  body : List Nat
deriving DecidableEq, Repr

/-- Modelled from the spec: DSG round-2 payload (dsg::SignMsg2). -/
structure SignMsg2 where
  from_id : Nat
  to_id : Nat
  body : List Nat
deriving DecidableEq, Repr

/-- Modelled from the spec: DSG round-3 payload (dsg::SignMsg3). -/
structure SignMsg3 where
  from_id : Nat
  to_id : Nat
  body : List Nat
deriving DecidableEq, Repr

/-- Modelled from the spec: DSG round-4 payload (dsg::SignMsg4) — this
party's partial-signature contribution, broadcast. -/
structure SignMsg4 where
  from_id : Nat
  body : List Nat
deriving DecidableEq, Repr

/-! Modelled from the spec: the serializer (ciborium) is out of scope
except for its black-box contract — a compact, self-describing encoding a
decoder can reject without side information, with decode(encode(x)) = x.
It is modelled as a length-prefixed field encoding satisfying exactly
that contract. -/

/-- Modelled from the spec: self-describing encoding of a broadcast-shaped
payload (sender id, opaque body). -/
def encodeBroadcastPayload (fid : Nat) (body : List Nat) : List Nat :=
  fid :: body.length :: body

/-- Modelled from the spec: decoder for a broadcast-shaped payload;
rejects malformed input. -/
def decodeBroadcastPayload : List Nat → Except String (Nat × List Nat)
  | fid :: len :: rest =>
    if rest.length = len then .ok (fid, rest) else .error "CBOR decode error"
  | _ => .error "CBOR decode error"

/-- Modelled from the spec: self-describing encoding of a point-to-point
payload (sender id, receiver id, opaque body). -/
def encodeP2pPayload (fid tid : Nat) (body : List Nat) : List Nat :=
  fid :: tid :: body.length :: body

/-- Modelled from the spec: decoder for a point-to-point payload. -/
def decodeP2pPayload : List Nat → Except String (Nat × Nat × List Nat)
  | fid :: tid :: len :: rest =>
    if rest.length = len then .ok (fid, tid, rest) else .error "CBOR decode error"
  | _ => .error "CBOR decode error"

instance : SerializePayload KeygenMsg1 where
  encode m := encodeBroadcastPayload m.from_id m.body

instance : DeserializePayload KeygenMsg1 where
  decode p := (decodeBroadcastPayload p).map (fun x => ⟨x.1, x.2⟩)

instance : SerializePayload KeygenMsg2 where
  encode m := encodeP2pPayload m.from_id m.to_id m.body

instance : DeserializePayload KeygenMsg2 where
  decode p := (decodeP2pPayload p).map (fun x => ⟨x.1, x.2.1, x.2.2⟩)

instance : SerializePayload KeygenMsg3 where
  encode m := encodeP2pPayload m.from_id m.to_id m.body

instance : DeserializePayload KeygenMsg3 where
  decode p := (decodeP2pPayload p).map (fun x => ⟨x.1, x.2.1, x.2.2⟩)

instance : SerializePayload KeygenMsg4 where
  encode m := encodeBroadcastPayload m.from_id m.body

instance : DeserializePayload KeygenMsg4 where
  decode p := (decodeBroadcastPayload p).map (fun x => ⟨x.1, x.2⟩)

instance : SerializePayload SignMsg1 where
  encode m := encodeBroadcastPayload m.from_id m.body

instance : DeserializePayload SignMsg1 where
  decode p := (decodeBroadcastPayload p).map (fun x => ⟨x.1, x.2⟩)

instance : SerializePayload SignMsg2 where
  encode m := encodeP2pPayload m.from_id m.to_id m.body

instance : DeserializePayload SignMsg2 where
  decode p := (decodeP2pPayload p).map (fun x => ⟨x.1, x.2.1, x.2.2⟩)

instance : SerializePayload SignMsg3 where
  encode m := encodeP2pPayload m.from_id m.to_id m.body

instance : DeserializePayload SignMsg3 where
  decode p := (decodeP2pPayload p).map (fun x => ⟨x.1, x.2.1, x.2.2⟩)

instance : SerializePayload SignMsg4 where
  encode m := encodeBroadcastPayload m.from_id m.body

instance : DeserializePayload SignMsg4 where
  decode p := (decodeBroadcastPayload p).map (fun x => ⟨x.1, x.2⟩)

/-- Routing of dkg::KeygenMsg1 (impl in keygen.rs): broadcast. -/
instance : MessageRouting KeygenMsg1 where
  src_party_id m := m.from_id
  dst_party_id _ := none

/-- Routing of dkg::KeygenMsg2: point-to-point to the payload's to_id. -/
instance : MessageRouting KeygenMsg2 where
  src_party_id m := m.from_id
  dst_party_id m := some m.to_id

/-- Routing of dkg::KeygenMsg3: point-to-point to the payload's to_id. -/
instance : MessageRouting KeygenMsg3 where
  src_party_id m := m.from_id
  dst_party_id m := some m.to_id

/-- Routing of dkg::KeygenMsg4: broadcast. -/
instance : MessageRouting KeygenMsg4 where
  src_party_id m := m.from_id
  dst_party_id _ := none

/-- Routing of dsg::SignMsg1 (impl in sign.rs): broadcast. -/
instance : MessageRouting SignMsg1 where
  src_party_id m := m.from_id
  dst_party_id _ := none

/-- Routing of dsg::SignMsg2: point-to-point to the payload's to_id. -/
instance : MessageRouting SignMsg2 where
  src_party_id m := m.from_id
  dst_party_id m := some m.to_id

/-- Routing of dsg::SignMsg3: point-to-point to the payload's to_id. -/
instance : MessageRouting SignMsg3 where
  src_party_id m := m.from_id
  dst_party_id m := some m.to_id

/-- Routing of dsg::SignMsg4: broadcast. -/
instance : MessageRouting SignMsg4 where
  src_party_id m := m.from_id
  dst_party_id _ := none

/-! ### Seeded RNG construction (lib.rs) -/

/-- Outcome of constructing the per-call RNG: the process aborts when the
32-byte conversion of a supplied seed fails (expect), otherwise the RNG is
either deterministically seeded or drawn from the secure source. -/
inductive RngOutcome where
  | seedPanic
  | seeded (seed : List Nat)
  | secure
deriving DecidableEq, Repr

/-- maybe_seeded_rng (lib.rs): no seed falls back to thread_rng; a
supplied seed must convert to a 32-byte array or the expect aborts. -/
def maybe_seeded_rng : Option (List Nat) → RngOutcome
  | none => .secure
  | some s => if s.length = 32 then .seeded s else .seedPanic

/-- FFI seed-argument convention shared by every entry point: a null
pointer or a zero length is treated as no seed. -/
def seed_arg (seedNull : Bool) (seed : List Nat) : Option (List Nat) :=
  if seedNull = true ∨ seed.length = 0 then none else some seed

/-- Computation that may abort the process (a Rust panic) instead of
returning. -/
inductive Panics (α : Type) where
  | panics
  | returns (val : α)
deriving DecidableEq, Repr

/-! ### Error translation (errors.rs) -/

/-- Opaque dkg::KeygenError of the protocol engine; only its display
string is observed by the wrapper. -/
structure KeygenError where
  msg : String
deriving DecidableEq, Repr

/-- Modelled from the spec: dsg::SignError of the protocol engine.  The
wrapper distinguishes exactly the AbortProtocolAndBanParty class; every
other failure class is collapsed into a single opaque constructor. -/
inductive SignError where
  | AbortProtocolAndBanParty (party : Nat)
  | Other (description : String)
deriving DecidableEq, Repr

/-- Display string of a SignError (err.to_string in Rust). -/
def SignError.toText : SignError → String
  | .AbortProtocolAndBanParty _ => "abort protocol and ban party"
  | .Other d => d

/-- keygen_error_to_go (errors.rs): every keygen engine error becomes the
generic code 1. -/
def keygen_error_to_go (err : KeygenError) : GoError :=
  GoError.mk err.msg 1

/-- sign_error_to_go (errors.rs): code 2 exactly for
AbortProtocolAndBanParty, code 1 otherwise. -/
def sign_error_to_go (err : SignError) : GoError :=
  let code : Int :=
    match err with
    | .AbortProtocolAndBanParty _ => 2
    | _ => 1
  GoError.mk err.toText code

/-! ### Opaque engine data (dkls23_ll) -/

/-- Opaque live state of the keygen protocol engine (dkg::State); its
content is never inspected by the wrapper. -/
abbrev DkgState : Type := Nat

/-- Opaque live state of the sign protocol engine (dsg::State). -/
abbrev DsgState : Type := Nat

/-- dkg::Party descriptor: per-party rank vector, threshold, own id. -/
structure Party where
  ranks : List Nat
  t : Nat
  party_id : Nat
deriving DecidableEq, Repr

/-- dkg::Keyshare as observed through the wrapper accessors
(keyshare.rs): public key bytes, own party id, rank list, threshold. -/
structure Keyshare where
  public_key : List Nat
  party_id : Nat
  rank_list : List Nat
  threshold : Nat
deriving DecidableEq, Repr

/-- Modelled from the spec: opaque non-serializable pre-signature held
between sign rounds 3 and 4 (dsg::PreSignature). -/
structure PreSignature where
  data : Nat
deriving DecidableEq, Repr

/-- Modelled from the spec: opaque partial signature held while waiting
for round-4 messages (dsg::PartialSignature). -/
structure PartialSignature where
  data : Nat
deriving DecidableEq, Repr

/-- Final signature as observed through split_bytes: the r and s byte
strings. -/
structure Signature where
  r : List Nat
  s : List Nat
deriving DecidableEq, Repr

/-- Opaque compressed curve point (k256::AffinePoint), as bytes. -/
abbrev AffinePoint : Type := List Nat

/-- Opaque parsed derivation path (derivation_path::DerivationPath). -/
abbrev DerivationPath : Type := String

/-- dkg::RefreshShare in the lost-share-recovery form used by the
wrapper. -/
inductive RefreshShare where
  | from_lost_keyshare (party : Party) (pk : AffinePoint) (lost : List Nat)

/-! ### Keygen session state machine (keygen.rs) -/

/-- Keygen Round (keygen.rs): the tagged round of a keygen session;
Share carries the completed keyshare. -/
inductive KgRound where
  | Init
  | WaitMsg1
  | WaitMsg2
  | WaitMsg3
  | WaitMsg4
  | Failed
  | Share (share : Keyshare)
deriving DecidableEq, Repr

/-- True on the in-progress rounds (neither Share nor Failed). -/
def KgRound.inProgress : KgRound → Bool
  | .Init | .WaitMsg1 | .WaitMsg2 | .WaitMsg3 | .WaitMsg4 => true
  | _ => false

/-- KeygenSessionHandle (keygen.rs): opaque engine state, party count n,
current round. -/
structure KeygenSessionHandle where
  state : DkgState
  n : Nat
  round : KgRound
deriving DecidableEq, Repr

/-- Per-round handlers of the keygen protocol engine (dkg::State methods),
injected as an oracle; each takes the per-call RNG and the current opaque
state and returns the updated state with the round result. -/
structure KeygenEngine where
  handle_msg1 : RngOutcome → DkgState → List KeygenMsg1 →
    DkgState × Except KeygenError (List KeygenMsg2)
  handle_msg2 : RngOutcome → DkgState → List KeygenMsg2 →
    DkgState × Except KeygenError (List KeygenMsg3)
  handle_msg3 : RngOutcome → DkgState → List KeygenMsg3 → List (List Nat) →
    DkgState × Except KeygenError KeygenMsg4
  handle_msg4 : DkgState → List KeygenMsg4 →
    DkgState × Except KeygenError Keyshare
  generate_msg1 : DkgState → DkgState × KeygenMsg1

/-- dkls_keygen_new: builds a zero-rank party descriptor and a fresh
engine state; the only observable failure mode is the seed-conversion
abort inside maybe_seeded_rng.  state_new stands for dkg::State::new. -/
def dkls_keygen_new (participants threshold party_id : Nat)
    (seedNull : Bool) (seed : List Nat)
    (state_new : Party → RngOutcome → DkgState) : Panics KeygenSessionHandle :=
  match maybe_seeded_rng (seed_arg seedNull seed) with
  | .seedPanic => .panics
  | rng =>
    let party : Party := ⟨List.replicate participants 0, threshold, party_id⟩
    .returns ⟨state_new party rng, party.ranks.length, .Init⟩

/-- Result of a call returning an optional message, as dkls_*_create_first_message
and dkls_sign_last_message do; session is the post-call handle content. -/
structure MsgCallResult (S : Type) where
  msg : Option Message
  err : Option GoError
  session : Option S
deriving DecidableEq, Repr

/-- dkls_keygen_create_first_message: valid only in Init; transitions to
WaitMsg1 and emits the broadcast round-1 message; any other round is an
invalid-state error leaving the session untouched. -/
def dkls_keygen_create_first_message (handle : Option KeygenSessionHandle)
    (eng : KeygenEngine) : MsgCallResult KeygenSessionHandle :=
  match handle with
  | none => ⟨none, some (GoError.mk "null handle" 1), none⟩
  | some hdl =>
    match hdl.round with
    | .Init =>
      let sm := eng.generate_msg1 hdl.state
      ⟨some (Message.new sm.2), none, some { hdl with state := sm.1, round := .WaitMsg1 }⟩
    | _ => ⟨none, some (GoError.mk "invalid state" 1), some hdl⟩

/-- The generic handle_messages helper of keygen.rs: decode the batch
(all-or-nothing), then run the engine handler; a decode failure reports
the decode error and leaves the round untouched, an engine failure moves
the round to Failed, success encodes the outputs and moves to next. -/
def keygen_handle_messages {T U : Type} [DeserializePayload T]
    [SerializePayload U] [MessageRouting U]
    (hdl : KeygenSessionHandle) (msgs : List Message)
    (h : DkgState → List T → DkgState × Except KeygenError (List U))
    (next : KgRound) : Except GoError (List Message) × KeygenSessionHandle :=
  match (Message.decode_vector msgs : Except String (List T)) with
  | .error e => (.error (GoError.mk e 1), hdl)
  | .ok v =>
    match h hdl.state v with
    | (s, .ok out) => (.ok (Message.encode_vector out), { hdl with state := s, round := next })
    | (s, .error err) => (.error (keygen_error_to_go err), { hdl with state := s, round := .Failed })

/-- Result of a round-advance call: C return code, out-parameter error,
produced messages, and the post-call handle content. -/
structure AdvanceResult (S : Type) where
  ret : Int
  err : Option GoError
  out : List Message
  session : Option S
deriving DecidableEq, Repr

/-- Folds the helper's result into the C-level return convention of
dkls_keygen_handle_messages. -/
def keygenFinish (r : Except GoError (List Message) × KeygenSessionHandle) :
    AdvanceResult KeygenSessionHandle :=
  match r with
  | (.ok out, h2) => ⟨0, none, out, some h2⟩
  | (.error e, h2) => ⟨-1, some e, [], some h2⟩

/-- Splits a byte list into exact 32-byte chunks (chunks_exact(32)). -/
def chunks32 (l : List Nat) : List (List Nat) :=
  if h : l.length < 32 then []
  else
    have : l.length - 32 < l.length := by omega
    l.take 32 :: chunks32 (l.drop 32)
termination_by l.length
decreasing_by simpa [List.length_drop]

/-- Round dispatch of dkls_keygen_handle_messages, after the null-handle
check and the RNG construction.  Round WaitMsg3 first validates the
externally supplied commitment buffer (null/empty, then exact n*32
length) before any decode or engine work.  Round WaitMsg4 decodes inline
and moves to Failed on a decode failure; a Failed session only reports
the failure. -/
def keygen_advance (hdl : KeygenSessionHandle) (msgs : List Message)
    (commitmentsNull : Bool) (commitments : List Nat)
    (rng : RngOutcome) (eng : KeygenEngine) : AdvanceResult KeygenSessionHandle :=
  match hdl.round with
  | .WaitMsg1 =>
    keygenFinish (keygen_handle_messages hdl msgs
      (fun s v => eng.handle_msg1 rng s v) .WaitMsg2)
  | .WaitMsg2 =>
    keygenFinish (keygen_handle_messages hdl msgs
      (fun s v => eng.handle_msg2 rng s v) .WaitMsg3)
  | .WaitMsg3 =>
    if commitmentsNull = true ∨ commitments.length = 0 then
      ⟨-1, some (GoError.mk "commitments required" 1), [], some hdl⟩
    else if commitments.length ≠ hdl.n * 32 then
      ⟨-1, some (GoError.mk "invalid commitments length" 1), [], some hdl⟩
    else
      keygenFinish (keygen_handle_messages hdl msgs
        (fun s v =>
          let sr := eng.handle_msg3 rng s v (chunks32 commitments)
          (sr.1, sr.2.map (fun m => [m])))
        .WaitMsg4)
  | .WaitMsg4 =>
    match (Message.decode_vector msgs : Except String (List KeygenMsg4)) with
    | .error e =>
      ⟨-1, some (GoError.mk e 1), [], some { hdl with round := .Failed }⟩
    | .ok v =>
      match eng.handle_msg4 hdl.state v with
      | (s, .ok share) =>
        ⟨0, none, [], some { hdl with state := s, round := .Share share }⟩
      | (s, .error err) =>
        ⟨-1, some (keygen_error_to_go err), [], some { hdl with state := s, round := .Failed }⟩
  | .Failed =>
    ⟨-1, some (GoError.mk "failed session" 1), [], some hdl⟩
  | _ =>
    ⟨-1, some (GoError.mk "invalid session state" 1), [], some hdl⟩

/-- dkls_keygen_handle_messages: the round-advance entry point of a
keygen session.  A null handle is rejected first; then the per-call RNG
is built (may abort on a bad seed); then the current round dispatches to
the engine handler (keygen_advance). -/
def dkls_keygen_handle_messages (handle : Option KeygenSessionHandle)
    (msgs : List Message) (commitmentsNull : Bool) (commitments : List Nat)
    (seedNull : Bool) (seed : List Nat) (eng : KeygenEngine) :
    Panics (AdvanceResult KeygenSessionHandle) :=
  match handle with
  | none => .returns ⟨-1, some (GoError.mk "null handle" 1), [], none⟩
  | some hdl =>
    match maybe_seeded_rng (seed_arg seedNull seed) with
    | .seedPanic => .panics
    | rng => .returns (keygen_advance hdl msgs commitmentsNull commitments rng eng)

/-- Result of the keyshare-extraction call: the extracted share, the
error, whether the session allocation was freed by the call, and the
post-call handle content when it was not freed. -/
structure KeyshareCallResult where
  share : Option Keyshare
  err : Option GoError
  freed : Bool
  session : Option KeygenSessionHandle
deriving DecidableEq, Repr

/-- dkls_keygen_keyshare: replaces the round with Failed, then: a Share
round frees the session and returns the keyshare; a Failed round reports
an error and leaves the allocation alive (still Failed); every
in-progress round reports an error and frees the session. -/
def dkls_keygen_keyshare (handle : Option KeygenSessionHandle) : KeyshareCallResult :=
  match handle with
  | none => ⟨none, some (GoError.mk "null handle" 1), false, none⟩
  | some hdl =>
    match hdl.round with
    | .Share share => ⟨some share, none, true, none⟩
    | .Failed => ⟨none, some (GoError.mk "failed" 1), false, some { hdl with round := .Failed }⟩
    | _ => ⟨none, some (GoError.mk "keygen-in-progress" 1), true, none⟩

/-- dkls_keygen_init_lost_share_recovery: rejects a public key buffer of
length other than 33 before any protocol work, builds the RNG (abort
possible on a bad seed), rejects an invalid point encoding, then runs
key_refresh on the lost-keyshare refresh descriptor. -/
def dkls_keygen_init_lost_share_recovery (participants threshold party_id : Nat)
    (pk : List Nat) (lost_shares : List Nat)
    (seedNull : Bool) (seed : List Nat)
    (pointFromBytes : List Nat → Option AffinePoint)
    (key_refresh : RefreshShare → RngOutcome → Except KeygenError DkgState) :
    Panics (Option KeygenSessionHandle × Option GoError) :=
  if pk.length ≠ 33 then .returns (none, some (GoError.mk "invalid PK size" 1))
  else
    match maybe_seeded_rng (seed_arg seedNull seed) with
    | .seedPanic => .panics
    | rng =>
      let party : Party := ⟨List.replicate participants 0, threshold, party_id⟩
      match pointFromBytes pk with
      | none => .returns (none, some (GoError.mk "invalid PK" 1))
      | some point =>
        match key_refresh (.from_lost_keyshare party point lost_shares) rng with
        | .ok st => .returns (some ⟨st, participants, .Init⟩, none)
        | .error e => .returns (none, some (keygen_error_to_go e))

/-! ### Sign session state machine (sign.rs) -/

/-- Sign Round (sign.rs): the tagged round of a sign session; Pre carries
the pre-signature and WaitMsg4 the local partial signature. -/
inductive SgRound where
  | Init
  | WaitMsg1
  | WaitMsg2
  | WaitMsg3
  | Pre (pre : PreSignature)
  | WaitMsg4 (psig : PartialSignature)
  | Failed
  | Finished
deriving DecidableEq, Repr

/-- SignSessionHandle (sign.rs): opaque engine state plus current round. -/
structure SignSessionHandle where
  state : DsgState
  round : SgRound
deriving DecidableEq, Repr

/-- Per-round handlers of the sign protocol engine (dsg::State methods),
injected as an oracle. -/
structure SignEngine where
  handle_msg1 : RngOutcome → DsgState → List SignMsg1 →
    DsgState × Except SignError (List SignMsg2)
  handle_msg2 : RngOutcome → DsgState → List SignMsg2 →
    DsgState × Except SignError (List SignMsg3)
  handle_msg3 : DsgState → List SignMsg3 →
    DsgState × Except SignError PreSignature
  generate_msg1 : DsgState → DsgState × SignMsg1

/-- dkls_sign_new: rejects a null keyshare, a null/invalid path string
and a malformed derivation path before any protocol state is built; then
builds the RNG (abort possible on a bad seed) and runs dsg::State::new on
a clone of the keyshare.  parsePath stands for DerivationPath::from_str
and state_new for dsg::State::new. -/
def dkls_sign_new (keyshare : Option Keyshare) (chain_path : Option String)
    (parsePath : String → Option DerivationPath)
    (seedNull : Bool) (seed : List Nat)
    (state_new : RngOutcome → Keyshare → DerivationPath → Except Unit DsgState) :
    Panics (Option SignSessionHandle × Option GoError) :=
  match keyshare with
  | none => .returns (none, some (GoError.mk "null keyshare" 1))
  | some ks =>
    match chain_path with
    | none => .returns (none, some (GoError.mk "null pointer" 1))
    | some cp =>
      match parsePath cp with
      | none => .returns (none, some (GoError.mk "invalid derivation path" 1))
      | some dp =>
        match maybe_seeded_rng (seed_arg seedNull seed) with
        | .seedPanic => .panics
        | rng =>
          match state_new rng ks dp with
          | .ok st => .returns (some ⟨st, .Init⟩, none)
          | .error _ => .returns (none, some (GoError.mk "sign session init failed" 1))

/-- dkls_sign_create_first_message: valid only in Init; transitions to
WaitMsg1 and emits the broadcast round-1 message. -/
def dkls_sign_create_first_message (handle : Option SignSessionHandle)
    (eng : SignEngine) : MsgCallResult SignSessionHandle :=
  match handle with
  | none => ⟨none, some (GoError.mk "null handle" 1), none⟩
  | some hdl =>
    match hdl.round with
    | .Init =>
      let sm := eng.generate_msg1 hdl.state
      ⟨some (Message.new sm.2), none, some { hdl with state := sm.1, round := .WaitMsg1 }⟩
    | _ => ⟨none, some (GoError.mk "invalid state" 1), some hdl⟩

/-- The generic handle_messages helper of sign.rs: identical control flow
to the keygen helper, with the sign error translation. -/
def sign_handle_messages {T U : Type} [DeserializePayload T]
    [SerializePayload U] [MessageRouting U]
    (hdl : SignSessionHandle) (msgs : List Message)
    (h : DsgState → List T → DsgState × Except SignError (List U))
    (next : SgRound) : Except GoError (List Message) × SignSessionHandle :=
  match (Message.decode_vector msgs : Except String (List T)) with
  | .error e => (.error (GoError.mk e 1), hdl)
  | .ok v =>
    match h hdl.state v with
    | (s, .ok out) => (.ok (Message.encode_vector out), { hdl with state := s, round := next })
    | (s, .error err) => (.error (sign_error_to_go err), { hdl with state := s, round := .Failed })

/-- Folds the helper's result into the C-level return convention of
dkls_sign_handle_messages. -/
def signFinish (r : Except GoError (List Message) × SignSessionHandle) :
    AdvanceResult SignSessionHandle :=
  match r with
  | (.ok out, h2) => ⟨0, none, out, some h2⟩
  | (.error e, h2) => ⟨-1, some e, [], some h2⟩

/-- Round dispatch of dkls_sign_handle_messages, after the null-handle
check and the RNG construction.  WaitMsg3 decodes inline and moves to
Failed on a decode failure; success stores the pre-signature in the Pre
round with no outbound messages. -/
def sign_advance (hdl : SignSessionHandle) (msgs : List Message)
    (rng : RngOutcome) (eng : SignEngine) : AdvanceResult SignSessionHandle :=
  match hdl.round with
  | .WaitMsg1 =>
    signFinish (sign_handle_messages hdl msgs
      (fun s v => eng.handle_msg1 rng s v) .WaitMsg2)
  | .WaitMsg2 =>
    signFinish (sign_handle_messages hdl msgs
      (fun s v => eng.handle_msg2 rng s v) .WaitMsg3)
  | .WaitMsg3 =>
    match (Message.decode_vector msgs : Except String (List SignMsg3)) with
    | .error e =>
      ⟨-1, some (GoError.mk e 1), [], some { hdl with round := .Failed }⟩
    | .ok v =>
      match eng.handle_msg3 hdl.state v with
      | (s, .ok pre) =>
        ⟨0, none, [], some { hdl with state := s, round := .Pre pre }⟩
      | (s, .error err) =>
        ⟨-1, some (sign_error_to_go err), [], some { hdl with state := s, round := .Failed }⟩
  | .Failed =>
    ⟨-1, some (GoError.mk "failed" 1), [], some hdl⟩
  | _ =>
    ⟨-1, some (GoError.mk "invalid session state" 1), [], some hdl⟩

/-- dkls_sign_handle_messages: the round-advance entry point of a sign
session.  A null handle is rejected, then the RNG is built (abort
possible on a bad seed), then the round dispatches (sign_advance). -/
def dkls_sign_handle_messages (handle : Option SignSessionHandle)
    (msgs : List Message) (seedNull : Bool) (seed : List Nat)
    (eng : SignEngine) : Panics (AdvanceResult SignSessionHandle) :=
  match handle with
  | none => .returns ⟨-1, some (GoError.mk "null handle" 1), [], none⟩
  | some hdl =>
    match maybe_seeded_rng (seed_arg seedNull seed) with
    | .seedPanic => .panics
    | rng => .returns (sign_advance hdl msgs rng eng)

/-- dkls_sign_last_message: supplies the 32-byte message digest.  A null
handle or a digest of any other length is rejected before the round is
touched.  From Pre, the pre-signature is consumed by
dsg::create_partial_signature (the cps oracle), the partial signature is
stored in WaitMsg4 and the broadcast round-4 message is returned; from
any other round the previous round is restored and an invalid-state
error is reported. -/
def dkls_sign_last_message (handle : Option SignSessionHandle)
    (message_hash : List Nat)
    (cps : PreSignature → List Nat → PartialSignature × SignMsg4) :
    MsgCallResult SignSessionHandle :=
  match handle with
  | none => ⟨none, some (GoError.mk "null handle" 1), none⟩
  | some hdl =>
    if message_hash.length ≠ 32 then
      ⟨none, some (GoError.mk "invalid message hash" 1), some hdl⟩
    else
      match hdl.round with
      | .Pre pre =>
        let pm := cps pre message_hash
        ⟨some (Message.new pm.2), none, some { hdl with round := .WaitMsg4 pm.1 }⟩
      | r => ⟨none, some (GoError.mk "invalid state" 1), some { hdl with round := r }⟩

/-- Result of the combine call: C return code, error, the r and s output
buffers when written, whether the session allocation was freed, and the
post-call handle content when it was not freed. -/
structure CombineResult where
  ret : Int
  err : Option GoError
  rOut : Option (List Nat)
  sOut : Option (List Nat)
  freed : Bool
  session : Option SignSessionHandle
deriving DecidableEq, Repr

/-- dkls_sign_combine: with a null handle or null output buffer nothing
is touched; otherwise the session allocation is freed on every path —
decode failure of the round-4 batch, combination failure, unexpected
signature size, success, and a wrong-round call alike.
combine_signatures stands for dsg::combine_signatures. -/
def dkls_sign_combine (handle : Option SignSessionHandle)
    (msgs : List Message) (rOutNull sOutNull : Bool)
    (combine_signatures : PartialSignature → List SignMsg4 → Except SignError Signature) :
    CombineResult :=
  match handle with
  | none => ⟨-1, some (GoError.mk "null handle or output" 1), none, none, false, none⟩
  | some hdl =>
    if rOutNull = true ∨ sOutNull = true then
      ⟨-1, some (GoError.mk "null handle or output" 1), none, none, false, some hdl⟩
    else
      match hdl.round with
      | .WaitMsg4 psig =>
        match (Message.decode_vector msgs : Except String (List SignMsg4)) with
        | .error e => ⟨-1, some (GoError.mk e 1), none, none, true, none⟩
        | .ok v =>
          match combine_signatures psig v with
          | .ok sg =>
            if sg.r.length ≠ 32 ∨ sg.s.length ≠ 32 then
              ⟨-1, some (GoError.mk "invalid signature size" 1), none, none, true, none⟩
            else
              ⟨0, none, some sg.r, some sg.s, true, none⟩
          | .error err => ⟨-1, some (sign_error_to_go err), none, none, true, none⟩
      | _ => ⟨-1, some (GoError.mk "invalid state" 1), none, none, true, none⟩

/-! ### Concrete oracle instances used to evaluate the model on closed
inputs -/

/-- A concrete keygen engine whose handlers trivially succeed. -/
def engKgDemo : KeygenEngine where
  handle_msg1 := fun _ s _ => (s, .ok [])
  handle_msg2 := fun _ s _ => (s, .ok [])
  handle_msg3 := fun _ s _ _ => (s, .ok ⟨0, []⟩)
  handle_msg4 := fun s _ => (s, .ok ⟨[], 0, [], 0⟩)
  generate_msg1 := fun s => (s, ⟨0, []⟩)

/-- A concrete sign engine whose handlers trivially succeed. -/
def engSgDemo : SignEngine where
  handle_msg1 := fun _ s _ => (s, .ok [])
  handle_msg2 := fun _ s _ => (s, .ok [])
  handle_msg3 := fun s _ => (s, .ok ⟨0⟩)
  generate_msg1 := fun s => (s, ⟨0, []⟩)

/-- A concrete dsg::create_partial_signature oracle. -/
def cpsDemo : PreSignature → List Nat → PartialSignature × SignMsg4 :=
  fun pre _ => (⟨pre.data⟩, ⟨0, []⟩)

/-- A concrete dsg::combine_signatures oracle that fails. -/
def combDemo : PartialSignature → List SignMsg4 → Except SignError Signature :=
  fun _ _ => .error (.Other "combine failed")

/-! ### Round-trip of the payload codec -/

theorem broadcastPayload_roundtrip (f : Nat) (b : List Nat) :
    decodeBroadcastPayload (encodeBroadcastPayload f b) = .ok (f, b) := by
  simp [encodeBroadcastPayload, decodeBroadcastPayload]

theorem p2pPayload_roundtrip (f t : Nat) (b : List Nat) :
    decodeP2pPayload (encodeP2pPayload f t b) = .ok (f, t, b) := by
  simp [encodeP2pPayload, decodeP2pPayload]

/-! ### Bridge lemmas: the advance entry points on a successfully built
RNG -/

theorem dkls_keygen_handle_messages_eq (hdl : KeygenSessionHandle)
    (msgs : List Message) (cn : Bool) (cs : List Nat) (sn : Bool)
    (sd : List Nat) (eng : KeygenEngine)
    (h : maybe_seeded_rng (seed_arg sn sd) ≠ .seedPanic) :
    dkls_keygen_handle_messages (some hdl) msgs cn cs sn sd eng =
      .returns (keygen_advance hdl msgs cn cs (maybe_seeded_rng (seed_arg sn sd)) eng) := by
  rw [dkls_keygen_handle_messages]
  cases hg : maybe_seeded_rng (seed_arg sn sd) with
  | seedPanic => exact absurd hg h
  | seeded s => rfl
  | secure => rfl

theorem dkls_sign_handle_messages_eq (hdl : SignSessionHandle)
    (msgs : List Message) (sn : Bool) (sd : List Nat) (eng : SignEngine)
    (h : maybe_seeded_rng (seed_arg sn sd) ≠ .seedPanic) :
    dkls_sign_handle_messages (some hdl) msgs sn sd eng =
      .returns (sign_advance hdl msgs (maybe_seeded_rng (seed_arg sn sd)) eng) := by
  rw [dkls_sign_handle_messages]
  cases hg : maybe_seeded_rng (seed_arg sn sd) with
  | seedPanic => exact absurd hg h
  | seeded s => rfl
  | secure => rfl

/-! ### Claims -/

/-- C9: for every protocol message value m of every round type (keygen
and sign rounds 1–4), decoding the envelope produced by encoding m
yields m back: Message.decode (Message.new m) = ok m. -/
theorem claim_C9_roundtrip :
    (∀ m : KeygenMsg1, Message.decode (Message.new m) = Except.ok m) ∧
    (∀ m : KeygenMsg2, Message.decode (Message.new m) = Except.ok m) ∧
    (∀ m : KeygenMsg3, Message.decode (Message.new m) = Except.ok m) ∧
    (∀ m : KeygenMsg4, Message.decode (Message.new m) = Except.ok m) ∧
    (∀ m : SignMsg1, Message.decode (Message.new m) = Except.ok m) ∧
    (∀ m : SignMsg2, Message.decode (Message.new m) = Except.ok m) ∧
    (∀ m : SignMsg3, Message.decode (Message.new m) = Except.ok m) ∧
    (∀ m : SignMsg4, Message.decode (Message.new m) = Except.ok m) := by
  refine ⟨fun m => ?_, fun m => ?_, fun m => ?_, fun m => ?_,
    fun m => ?_, fun m => ?_, fun m => ?_, fun m => ?_⟩
  · obtain ⟨f, b⟩ := m
    show Except.map (fun x : Nat × List Nat => (⟨x.1, x.2⟩ : KeygenMsg1))
      (decodeBroadcastPayload (encodeBroadcastPayload f b)) = Except.ok ⟨f, b⟩
    rw [broadcastPayload_roundtrip]
    rfl
  · obtain ⟨f, t, b⟩ := m
    show Except.map (fun x : Nat × Nat × List Nat => (⟨x.1, x.2.1, x.2.2⟩ : KeygenMsg2))
      (decodeP2pPayload (encodeP2pPayload f t b)) = Except.ok ⟨f, t, b⟩
    rw [p2pPayload_roundtrip]
    rfl
  · obtain ⟨f, t, b⟩ := m
    show Except.map (fun x : Nat × Nat × List Nat => (⟨x.1, x.2.1, x.2.2⟩ : KeygenMsg3))
      (decodeP2pPayload (encodeP2pPayload f t b)) = Except.ok ⟨f, t, b⟩
    rw [p2pPayload_roundtrip]
    rfl
  · obtain ⟨f, b⟩ := m
    show Except.map (fun x : Nat × List Nat => (⟨x.1, x.2⟩ : KeygenMsg4))
      (decodeBroadcastPayload (encodeBroadcastPayload f b)) = Except.ok ⟨f, b⟩
    rw [broadcastPayload_roundtrip]
    rfl
  · obtain ⟨f, b⟩ := m
    show Except.map (fun x : Nat × List Nat => (⟨x.1, x.2⟩ : SignMsg1))
      (decodeBroadcastPayload (encodeBroadcastPayload f b)) = Except.ok ⟨f, b⟩
    rw [broadcastPayload_roundtrip]
    rfl
  · obtain ⟨f, t, b⟩ := m
    show Except.map (fun x : Nat × Nat × List Nat => (⟨x.1, x.2.1, x.2.2⟩ : SignMsg2))
      (decodeP2pPayload (encodeP2pPayload f t b)) = Except.ok ⟨f, t, b⟩
    rw [p2pPayload_roundtrip]
    rfl
  · obtain ⟨f, t, b⟩ := m
    show Except.map (fun x : Nat × Nat × List Nat => (⟨x.1, x.2.1, x.2.2⟩ : SignMsg3))
      (decodeP2pPayload (encodeP2pPayload f t b)) = Except.ok ⟨f, t, b⟩
    rw [p2pPayload_roundtrip]
    rfl
  · obtain ⟨f, b⟩ := m
    show Except.map (fun x : Nat × List Nat => (⟨x.1, x.2⟩ : SignMsg4))
      (decodeBroadcastPayload (encodeBroadcastPayload f b)) = Except.ok ⟨f, b⟩
    rw [broadcastPayload_roundtrip]
    rfl

/-- C7: the envelope routing derived at construction makes round-1 and
round-4 messages broadcast (destination sentinel 255) and round-2 and
round-3 messages point-to-point with the destination taken from the
payload, for every keygen and sign message type. -/
theorem claim_C7_routing :
    (∀ m : KeygenMsg1, (Message.new m).to_id = 255 ∧ (Message.new m).from_id = m.from_id) ∧
    (∀ m : KeygenMsg2, (Message.new m).to_id = m.to_id ∧ (Message.new m).from_id = m.from_id) ∧
    (∀ m : KeygenMsg3, (Message.new m).to_id = m.to_id ∧ (Message.new m).from_id = m.from_id) ∧
    (∀ m : KeygenMsg4, (Message.new m).to_id = 255 ∧ (Message.new m).from_id = m.from_id) ∧
    (∀ m : SignMsg1, (Message.new m).to_id = 255 ∧ (Message.new m).from_id = m.from_id) ∧
    (∀ m : SignMsg2, (Message.new m).to_id = m.to_id ∧ (Message.new m).from_id = m.from_id) ∧
    (∀ m : SignMsg3, (Message.new m).to_id = m.to_id ∧ (Message.new m).from_id = m.from_id) ∧
    (∀ m : SignMsg4, (Message.new m).to_id = 255 ∧ (Message.new m).from_id = m.from_id) :=
  ⟨fun _ => ⟨rfl, rfl⟩, fun _ => ⟨rfl, rfl⟩, fun _ => ⟨rfl, rfl⟩, fun _ => ⟨rfl, rfl⟩,
   fun _ => ⟨rfl, rfl⟩, fun _ => ⟨rfl, rfl⟩, fun _ => ⟨rfl, rfl⟩, fun _ => ⟨rfl, rfl⟩⟩

/-- C6: the sign combine operation with a non-null session handle and
non-null output buffers frees the session allocation on every call —
success, round-4 decode failure, combination failure, unexpected
signature size, and wrong-round calls alike. -/
theorem claim_C6_combine_consumes :
    ∀ (hdl : SignSessionHandle) (msgs : List Message)
      (comb : PartialSignature → List SignMsg4 → Except SignError Signature),
      (dkls_sign_combine (some hdl) msgs false false comb).freed = true := by
  intro hdl msgs comb
  obtain ⟨st, rd⟩ := hdl
  cases rd <;> simp [dkls_sign_combine]
  case WaitMsg4 psig =>
    cases hdec : (Message.decode_vector msgs : Except String (List SignMsg4)) with
    | error e => simp [hdec]
    | ok v =>
      cases hc : comb psig v with
      | ok sg =>
        by_cases h32 : sg.r.length ≠ 32 ∨ sg.s.length ≠ 32 <;> simp [hdec, hc, h32]
      | error err => simp [hdec, hc]

/-- C10: maybe_seeded_rng aborts the process (Rust expect) exactly when a
seed pointer is supplied with a non-zero length different from 32 bytes;
a 32-byte seed takes the deterministic path and a null pointer or zero
length falls back to secure randomness — and both session creation and
round advance inherit exactly this abort condition. -/
theorem claim_C10_seed_panic :
    (∀ (sn : Bool) (sd : List Nat),
      maybe_seeded_rng (seed_arg sn sd) =
        (if sn = true ∨ sd.length = 0 then .secure
         else if sd.length = 32 then .seeded sd else .seedPanic)) ∧
    (∀ (p t pid : Nat) (sn : Bool) (sd : List Nat)
       (stn : Party → RngOutcome → DkgState),
      dkls_keygen_new p t pid sn sd stn = .panics ↔
        (sn = false ∧ sd.length ≠ 0 ∧ sd.length ≠ 32)) ∧
    (∀ (hdl : KeygenSessionHandle) (msgs : List Message) (cn : Bool)
       (cs : List Nat) (sn : Bool) (sd : List Nat) (eng : KeygenEngine),
      dkls_keygen_handle_messages (some hdl) msgs cn cs sn sd eng = .panics ↔
        (sn = false ∧ sd.length ≠ 0 ∧ sd.length ≠ 32)) := by
  refine ⟨fun sn sd => ?_, fun p t pid sn sd stn => ?_, fun hdl msgs cn cs sn sd eng => ?_⟩
  · cases sn with
    | true => simp [seed_arg, maybe_seeded_rng]
    | false =>
      cases sd with
      | nil => simp [seed_arg, maybe_seeded_rng]
      | cons a l =>
        by_cases h31 : l.length = 31 <;>
          simp [seed_arg, maybe_seeded_rng, h31]
  · cases sn with
    | true => simp [dkls_keygen_new, seed_arg, maybe_seeded_rng]
    | false =>
      cases sd with
      | nil => simp [dkls_keygen_new, seed_arg, maybe_seeded_rng]
      | cons a l =>
        by_cases h31 : l.length = 31 <;>
          simp [dkls_keygen_new, seed_arg, maybe_seeded_rng, h31]
  · cases sn with
    | true => simp [dkls_keygen_handle_messages, seed_arg, maybe_seeded_rng]
    | false =>
      cases sd with
      | nil => simp [dkls_keygen_handle_messages, seed_arg, maybe_seeded_rng]
      | cons a l =>
        by_cases h31 : l.length = 31 <;>
          simp [dkls_keygen_handle_messages, seed_arg, maybe_seeded_rng, h31]

/-- C2 (counterexample): extracting a keyshare from a session in the
Failed round reports the error "failed" (not "failed session") and does
NOT consume the session handle — the freed flag is false and the handle
still holds the Failed round, refuting that both non-terminal-success
cases destroy the handle. -/
theorem claim_C2_counterexample :
    dkls_keygen_keyshare (some ⟨0, 2, .Failed⟩) =
      ⟨none, some (GoError.mk "failed" 1), false, some ⟨0, 2, .Failed⟩⟩ ∧
    (dkls_keygen_keyshare (some ⟨0, 2, .Failed⟩)).freed = false :=
  ⟨rfl, rfl⟩

/-- C2 (amended): keyshare extraction called on a Failed session reports
the "failed" error and leaves the handle alive, still in the Failed
round; called on a session in any in-progress round it reports the
"keygen-in-progress" error and consumes/destroys the handle. -/
theorem claim_C2_keyshare_extraction :
    (∀ hdl : KeygenSessionHandle, hdl.round = .Failed →
      dkls_keygen_keyshare (some hdl) =
        ⟨none, some (GoError.mk "failed" 1), false, some hdl⟩) ∧
    (∀ hdl : KeygenSessionHandle, hdl.round.inProgress = true →
      dkls_keygen_keyshare (some hdl) =
        ⟨none, some (GoError.mk "keygen-in-progress" 1), true, none⟩) := by
  constructor
  · intro hdl hr
    obtain ⟨st, n, rd⟩ := hdl
    simp only at hr
    subst hr
    simp [dkls_keygen_keyshare]
  · intro hdl hr
    obtain ⟨st, n, rd⟩ := hdl
    cases rd <;> simp [KgRound.inProgress] at hr <;> simp [dkls_keygen_keyshare]

/-- C2 (witness): the amended extraction contract evaluated on a Failed
session and on an Init session. -/
theorem claim_C2_keyshare_extraction_witness :
    dkls_keygen_keyshare (some ⟨0, 1, .Failed⟩) =
      ⟨none, some (GoError.mk "failed" 1), false, some ⟨0, 1, .Failed⟩⟩ ∧
    dkls_keygen_keyshare (some ⟨0, 1, .Init⟩) =
      ⟨none, some (GoError.mk "keygen-in-progress" 1), true, none⟩ :=
  ⟨claim_C2_keyshare_extraction.1 ⟨0, 1, .Failed⟩ rfl,
   claim_C2_keyshare_extraction.2 ⟨0, 1, .Init⟩ rfl⟩

/-- C4: a keygen round-advance in WaitMsg3 requires exactly n*32 bytes of
commitment data: a null/empty commitment buffer is rejected with
"commitments required" and any other length different from n*32 with
"invalid commitments length"; in both cases the call fails before the
protocol engine is invoked (the result does not depend on the engine) and
the session is returned unchanged, still in WaitMsg3. -/
theorem claim_C4_commitments :
    ∀ (hdl : KeygenSessionHandle) (msgs : List Message) (cs : List Nat)
      (sn : Bool) (sd : List Nat) (eng : KeygenEngine),
      hdl.round = .WaitMsg3 →
      maybe_seeded_rng (seed_arg sn sd) ≠ .seedPanic →
      (∀ cn : Bool, cn = true ∨ cs.length = 0 →
        dkls_keygen_handle_messages (some hdl) msgs cn cs sn sd eng =
          .returns ⟨-1, some (GoError.mk "commitments required" 1), [], some hdl⟩) ∧
      (cs.length ≠ 0 → cs.length ≠ hdl.n * 32 →
        dkls_keygen_handle_messages (some hdl) msgs false cs sn sd eng =
          .returns ⟨-1, some (GoError.mk "invalid commitments length" 1), [], some hdl⟩) := by
  intro hdl msgs cs sn sd eng hr hrng
  constructor
  · intro cn hcn
    rw [dkls_keygen_handle_messages_eq hdl msgs cn cs sn sd eng hrng]
    simp only [keygen_advance, hr]
    rw [if_pos hcn]
  · intro h0 hlen
    rw [dkls_keygen_handle_messages_eq hdl msgs false cs sn sd eng hrng]
    simp only [keygen_advance, hr]
    rw [if_neg (by simp [h0]), if_pos hlen]

/-- C4 (witness): the commitment-length validation evaluated on a
concrete WaitMsg3 session with n = 2: an empty buffer and a 1-byte
buffer are both rejected with the session unchanged. -/
theorem claim_C4_commitments_witness :
    dkls_keygen_handle_messages (some ⟨0, 2, .WaitMsg3⟩) [] true [] true [] engKgDemo =
      .returns ⟨-1, some (GoError.mk "commitments required" 1), [], some ⟨0, 2, .WaitMsg3⟩⟩ ∧
    dkls_keygen_handle_messages (some ⟨0, 2, .WaitMsg3⟩) [] false [0] true [] engKgDemo =
      .returns ⟨-1, some (GoError.mk "invalid commitments length" 1), [], some ⟨0, 2, .WaitMsg3⟩⟩ :=
  ⟨(claim_C4_commitments ⟨0, 2, .WaitMsg3⟩ [] [] true [] engKgDemo rfl (by decide)).1
      true (Or.inl rfl),
   (claim_C4_commitments ⟨0, 2, .WaitMsg3⟩ [] [0] true [] engKgDemo rfl (by decide)).2
      (by decide) (by decide)⟩

/-- C5: for a sign session in the Pre round, a digest whose length is not
32 bytes is rejected with an error and the session is returned unchanged,
still in Pre with the pre-signature intact; a 32-byte digest consumes the
pre-signature, produces exactly one outbound message and moves the
session to WaitMsg4 holding the partial signature. -/
theorem claim_C5_digest_length :
    ∀ (hdl : SignSessionHandle) (pre : PreSignature) (hash : List Nat)
      (cps : PreSignature → List Nat → PartialSignature × SignMsg4),
      hdl.round = .Pre pre →
      (hash.length ≠ 32 →
        dkls_sign_last_message (some hdl) hash cps =
          ⟨none, some (GoError.mk "invalid message hash" 1), some hdl⟩) ∧
      (hash.length = 32 →
        dkls_sign_last_message (some hdl) hash cps =
          ⟨some (Message.new (cps pre hash).2), none,
           some { hdl with round := .WaitMsg4 (cps pre hash).1 }⟩) := by
  intro hdl pre hash cps hr
  constructor
  · intro hl
    simp [dkls_sign_last_message, hl]
  · intro hl
    obtain ⟨st, rd⟩ := hdl
    simp only at hr
    subst hr
    simp [dkls_sign_last_message, hl]

/-- C5 (witness): the digest-length contract evaluated on a concrete Pre
session, with a 1-byte digest (rejected, session unchanged) and a
32-byte digest (pre-signature consumed, one message out, WaitMsg4). -/
theorem claim_C5_digest_length_witness :
    dkls_sign_last_message (some ⟨0, .Pre ⟨5⟩⟩) [0] cpsDemo =
      ⟨none, some (GoError.mk "invalid message hash" 1), some ⟨0, .Pre ⟨5⟩⟩⟩ ∧
    dkls_sign_last_message (some ⟨0, .Pre ⟨5⟩⟩) (List.replicate 32 0) cpsDemo =
      ⟨some (Message.new (cpsDemo ⟨5⟩ (List.replicate 32 0)).2), none,
       some ⟨0, .WaitMsg4 (cpsDemo ⟨5⟩ (List.replicate 32 0)).1⟩⟩ :=
  ⟨(claim_C5_digest_length ⟨0, .Pre ⟨5⟩⟩ ⟨5⟩ [0] cpsDemo rfl).1 (by decide),
   (claim_C5_digest_length ⟨0, .Pre ⟨5⟩⟩ ⟨5⟩ (List.replicate 32 0) cpsDemo rfl).2
     (by simp)⟩

/-- C3: the Failed round is absorbing: on a Failed session every
message-production call (keygen/sign create-first-message, sign
last-message) and every round-advance call (keygen/sign handle-messages)
fails with an error and leaves the session in the Failed round. -/
theorem claim_C3_failed_absorbing :
    (∀ (hdl : KeygenSessionHandle) (eng : KeygenEngine), hdl.round = .Failed →
      dkls_keygen_create_first_message (some hdl) eng =
        ⟨none, some (GoError.mk "invalid state" 1), some hdl⟩) ∧
    (∀ (hdl : KeygenSessionHandle) (msgs : List Message) (cn : Bool)
       (cs : List Nat) (sn : Bool) (sd : List Nat) (eng : KeygenEngine),
      hdl.round = .Failed →
      maybe_seeded_rng (seed_arg sn sd) ≠ .seedPanic →
      dkls_keygen_handle_messages (some hdl) msgs cn cs sn sd eng =
        .returns ⟨-1, some (GoError.mk "failed session" 1), [], some hdl⟩) ∧
    (∀ (hdl : SignSessionHandle) (eng : SignEngine), hdl.round = .Failed →
      dkls_sign_create_first_message (some hdl) eng =
        ⟨none, some (GoError.mk "invalid state" 1), some hdl⟩) ∧
    (∀ (hdl : SignSessionHandle) (msgs : List Message) (sn : Bool)
       (sd : List Nat) (eng : SignEngine),
      hdl.round = .Failed →
      maybe_seeded_rng (seed_arg sn sd) ≠ .seedPanic →
      dkls_sign_handle_messages (some hdl) msgs sn sd eng =
        .returns ⟨-1, some (GoError.mk "failed" 1), [], some hdl⟩) ∧
    (∀ (hdl : SignSessionHandle) (hash : List Nat)
       (cps : PreSignature → List Nat → PartialSignature × SignMsg4),
      hdl.round = .Failed →
      (dkls_sign_last_message (some hdl) hash cps).msg = none ∧
      (dkls_sign_last_message (some hdl) hash cps).err ≠ none ∧
      (dkls_sign_last_message (some hdl) hash cps).session = some hdl) := by
  refine ⟨fun hdl eng hr => ?_, fun hdl msgs cn cs sn sd eng hr hrng => ?_,
    fun hdl eng hr => ?_, fun hdl msgs sn sd eng hr hrng => ?_,
    fun hdl hash cps hr => ?_⟩
  · simp [dkls_keygen_create_first_message, hr]
  · rw [dkls_keygen_handle_messages_eq hdl msgs cn cs sn sd eng hrng]
    simp [keygen_advance, hr]
  · simp [dkls_sign_create_first_message, hr]
  · rw [dkls_sign_handle_messages_eq hdl msgs sn sd eng hrng]
    simp [sign_advance, hr]
  · obtain ⟨st, rd⟩ := hdl
    simp only at hr
    subst hr
    by_cases hl : hash.length = 32 <;> simp [dkls_sign_last_message, hl]

/-- C3 (witness): the absorbing-Failed contract evaluated on concrete
Failed keygen and sign sessions for all five operations. -/
theorem claim_C3_failed_absorbing_witness :
    dkls_keygen_create_first_message (some ⟨0, 2, .Failed⟩) engKgDemo =
      ⟨none, some (GoError.mk "invalid state" 1), some ⟨0, 2, .Failed⟩⟩ ∧
    dkls_keygen_handle_messages (some ⟨0, 2, .Failed⟩) [] false [] true [] engKgDemo =
      .returns ⟨-1, some (GoError.mk "failed session" 1), [], some ⟨0, 2, .Failed⟩⟩ ∧
    dkls_sign_create_first_message (some ⟨0, .Failed⟩) engSgDemo =
      ⟨none, some (GoError.mk "invalid state" 1), some ⟨0, .Failed⟩⟩ ∧
    dkls_sign_handle_messages (some ⟨0, .Failed⟩) [] true [] engSgDemo =
      .returns ⟨-1, some (GoError.mk "failed" 1), [], some ⟨0, .Failed⟩⟩ ∧
    (dkls_sign_last_message (some ⟨0, .Failed⟩) [0] cpsDemo).msg = none ∧
    (dkls_sign_last_message (some ⟨0, .Failed⟩) [0] cpsDemo).err ≠ none ∧
    (dkls_sign_last_message (some ⟨0, .Failed⟩) [0] cpsDemo).session = some ⟨0, .Failed⟩ := by
  refine ⟨claim_C3_failed_absorbing.1 ⟨0, 2, .Failed⟩ engKgDemo rfl,
    claim_C3_failed_absorbing.2.1 ⟨0, 2, .Failed⟩ [] false [] true [] engKgDemo rfl (by decide),
    claim_C3_failed_absorbing.2.2.1 ⟨0, .Failed⟩ engSgDemo rfl,
    claim_C3_failed_absorbing.2.2.2.1 ⟨0, .Failed⟩ [] true [] engSgDemo rfl (by decide),
    claim_C3_failed_absorbing.2.2.2.2 ⟨0, .Failed⟩ [0] cpsDemo rfl⟩

/-- C1 (counterexample): a keygen session in WaitMsg1 given a batch whose
message fails to decode: the call fails with the decode error, yet the
session stays in WaitMsg1 — it is not moved to Failed, refuting the claim
for round 1. -/
theorem claim_C1_counterexample :
    dkls_keygen_handle_messages (some ⟨0, 2, .WaitMsg1⟩) [⟨0, 255, []⟩] false [] true [] engKgDemo =
      .returns ⟨-1, some (GoError.mk "CBOR decode error" 1), [], some ⟨0, 2, .WaitMsg1⟩⟩ ∧
    (⟨0, 2, KgRound.WaitMsg1⟩ : KeygenSessionHandle).round ≠ KgRound.Failed := by
  constructor
  · rfl
  · decide

/-- C1 (amended): if any inbound message in the batch fails to decode,
the round-advance call fails with the decode error, but the session moves
to Failed only in keygen round WaitMsg4 and sign round WaitMsg3; in
keygen rounds WaitMsg1–WaitMsg3 and sign rounds WaitMsg1–WaitMsg2 the
session is left unchanged in its current Wait round. -/
theorem claim_C1_decode_failure :
    (∀ (hdl : KeygenSessionHandle) (msgs : List Message) (cn : Bool) (cs : List Nat)
       (sn : Bool) (sd : List Nat) (eng : KeygenEngine) (e : String),
      hdl.round = .WaitMsg1 →
      maybe_seeded_rng (seed_arg sn sd) ≠ .seedPanic →
      (Message.decode_vector msgs : Except String (List KeygenMsg1)) = .error e →
      dkls_keygen_handle_messages (some hdl) msgs cn cs sn sd eng =
        .returns ⟨-1, some (GoError.mk e 1), [], some hdl⟩) ∧
    (∀ (hdl : KeygenSessionHandle) (msgs : List Message) (cn : Bool) (cs : List Nat)
       (sn : Bool) (sd : List Nat) (eng : KeygenEngine) (e : String),
      hdl.round = .WaitMsg2 →
      maybe_seeded_rng (seed_arg sn sd) ≠ .seedPanic →
      (Message.decode_vector msgs : Except String (List KeygenMsg2)) = .error e →
      dkls_keygen_handle_messages (some hdl) msgs cn cs sn sd eng =
        .returns ⟨-1, some (GoError.mk e 1), [], some hdl⟩) ∧
    (∀ (hdl : KeygenSessionHandle) (msgs : List Message) (cs : List Nat)
       (sn : Bool) (sd : List Nat) (eng : KeygenEngine) (e : String),
      hdl.round = .WaitMsg3 →
      maybe_seeded_rng (seed_arg sn sd) ≠ .seedPanic →
      cs.length ≠ 0 → cs.length = hdl.n * 32 →
      (Message.decode_vector msgs : Except String (List KeygenMsg3)) = .error e →
      dkls_keygen_handle_messages (some hdl) msgs false cs sn sd eng =
        .returns ⟨-1, some (GoError.mk e 1), [], some hdl⟩) ∧
    (∀ (hdl : KeygenSessionHandle) (msgs : List Message) (cn : Bool) (cs : List Nat)
       (sn : Bool) (sd : List Nat) (eng : KeygenEngine) (e : String),
      hdl.round = .WaitMsg4 →
      maybe_seeded_rng (seed_arg sn sd) ≠ .seedPanic →
      (Message.decode_vector msgs : Except String (List KeygenMsg4)) = .error e →
      dkls_keygen_handle_messages (some hdl) msgs cn cs sn sd eng =
        .returns ⟨-1, some (GoError.mk e 1), [], some { hdl with round := .Failed }⟩) ∧
    (∀ (hdl : SignSessionHandle) (msgs : List Message)
       (sn : Bool) (sd : List Nat) (eng : SignEngine) (e : String),
      hdl.round = .WaitMsg1 →
      maybe_seeded_rng (seed_arg sn sd) ≠ .seedPanic →
      (Message.decode_vector msgs : Except String (List SignMsg1)) = .error e →
      dkls_sign_handle_messages (some hdl) msgs sn sd eng =
        .returns ⟨-1, some (GoError.mk e 1), [], some hdl⟩) ∧
    (∀ (hdl : SignSessionHandle) (msgs : List Message)
       (sn : Bool) (sd : List Nat) (eng : SignEngine) (e : String),
      hdl.round = .WaitMsg2 →
      maybe_seeded_rng (seed_arg sn sd) ≠ .seedPanic →
      (Message.decode_vector msgs : Except String (List SignMsg2)) = .error e →
      dkls_sign_handle_messages (some hdl) msgs sn sd eng =
        .returns ⟨-1, some (GoError.mk e 1), [], some hdl⟩) ∧
    (∀ (hdl : SignSessionHandle) (msgs : List Message)
       (sn : Bool) (sd : List Nat) (eng : SignEngine) (e : String),
      hdl.round = .WaitMsg3 →
      maybe_seeded_rng (seed_arg sn sd) ≠ .seedPanic →
      (Message.decode_vector msgs : Except String (List SignMsg3)) = .error e →
      dkls_sign_handle_messages (some hdl) msgs sn sd eng =
        .returns ⟨-1, some (GoError.mk e 1), [], some { hdl with round := .Failed }⟩) := by
  refine ⟨fun hdl msgs cn cs sn sd eng e hr hrng hdec => ?_,
    fun hdl msgs cn cs sn sd eng e hr hrng hdec => ?_,
    fun hdl msgs cs sn sd eng e hr hrng h0 hlen hdec => ?_,
    fun hdl msgs cn cs sn sd eng e hr hrng hdec => ?_,
    fun hdl msgs sn sd eng e hr hrng hdec => ?_,
    fun hdl msgs sn sd eng e hr hrng hdec => ?_,
    fun hdl msgs sn sd eng e hr hrng hdec => ?_⟩
  · rw [dkls_keygen_handle_messages_eq hdl msgs cn cs sn sd eng hrng]
    simp [keygen_advance, hr, keygen_handle_messages, hdec, keygenFinish]
  · rw [dkls_keygen_handle_messages_eq hdl msgs cn cs sn sd eng hrng]
    simp [keygen_advance, hr, keygen_handle_messages, hdec, keygenFinish]
  · rw [dkls_keygen_handle_messages_eq hdl msgs false cs sn sd eng hrng]
    simp only [keygen_advance, hr]
    rw [if_neg (by simp [h0]), if_neg (by simp [hlen])]
    simp [keygen_handle_messages, hdec, keygenFinish]
  · rw [dkls_keygen_handle_messages_eq hdl msgs cn cs sn sd eng hrng]
    simp [keygen_advance, hr, hdec]
  · rw [dkls_sign_handle_messages_eq hdl msgs sn sd eng hrng]
    simp [sign_advance, hr, sign_handle_messages, hdec, signFinish]
  · rw [dkls_sign_handle_messages_eq hdl msgs sn sd eng hrng]
    simp [sign_advance, hr, sign_handle_messages, hdec, signFinish]
  · rw [dkls_sign_handle_messages_eq hdl msgs sn sd eng hrng]
    simp [sign_advance, hr, hdec]

/-- C1 (witness): the amended decode-failure contract evaluated on
concrete sessions in each Wait round, with a batch holding one
undecodable message (empty payload). -/
theorem claim_C1_decode_failure_witness :
    dkls_keygen_handle_messages (some ⟨0, 2, .WaitMsg1⟩) [⟨1, 255, []⟩] false [] true [] engKgDemo =
      .returns ⟨-1, some (GoError.mk "CBOR decode error" 1), [], some ⟨0, 2, .WaitMsg1⟩⟩ ∧
    dkls_keygen_handle_messages (some ⟨0, 2, .WaitMsg2⟩) [⟨1, 0, []⟩] false [] true [] engKgDemo =
      .returns ⟨-1, some (GoError.mk "CBOR decode error" 1), [], some ⟨0, 2, .WaitMsg2⟩⟩ ∧
    dkls_keygen_handle_messages (some ⟨0, 2, .WaitMsg3⟩) [⟨1, 0, []⟩] false
        (List.replicate 64 0) true [] engKgDemo =
      .returns ⟨-1, some (GoError.mk "CBOR decode error" 1), [], some ⟨0, 2, .WaitMsg3⟩⟩ ∧
    dkls_keygen_handle_messages (some ⟨0, 2, .WaitMsg4⟩) [⟨1, 255, []⟩] false [] true [] engKgDemo =
      .returns ⟨-1, some (GoError.mk "CBOR decode error" 1), [], some ⟨0, 2, .Failed⟩⟩ ∧
    dkls_sign_handle_messages (some ⟨0, .WaitMsg1⟩) [⟨1, 255, []⟩] true [] engSgDemo =
      .returns ⟨-1, some (GoError.mk "CBOR decode error" 1), [], some ⟨0, .WaitMsg1⟩⟩ ∧
    dkls_sign_handle_messages (some ⟨0, .WaitMsg2⟩) [⟨1, 0, []⟩] true [] engSgDemo =
      .returns ⟨-1, some (GoError.mk "CBOR decode error" 1), [], some ⟨0, .WaitMsg2⟩⟩ ∧
    dkls_sign_handle_messages (some ⟨0, .WaitMsg3⟩) [⟨1, 0, []⟩] true [] engSgDemo =
      .returns ⟨-1, some (GoError.mk "CBOR decode error" 1), [], some ⟨0, .Failed⟩⟩ :=
  ⟨claim_C1_decode_failure.1 ⟨0, 2, .WaitMsg1⟩ [⟨1, 255, []⟩] false [] true [] engKgDemo
      "CBOR decode error" rfl (by decide) rfl,
   claim_C1_decode_failure.2.1 ⟨0, 2, .WaitMsg2⟩ [⟨1, 0, []⟩] false [] true [] engKgDemo
      "CBOR decode error" rfl (by decide) rfl,
   claim_C1_decode_failure.2.2.1 ⟨0, 2, .WaitMsg3⟩ [⟨1, 0, []⟩] (List.replicate 64 0)
      true [] engKgDemo "CBOR decode error" rfl (by decide) (by decide) (by decide) rfl,
   claim_C1_decode_failure.2.2.2.1 ⟨0, 2, .WaitMsg4⟩ [⟨1, 255, []⟩] false [] true [] engKgDemo
      "CBOR decode error" rfl (by decide) rfl,
   claim_C1_decode_failure.2.2.2.2.1 ⟨0, .WaitMsg1⟩ [⟨1, 255, []⟩] true [] engSgDemo
      "CBOR decode error" rfl (by decide) rfl,
   claim_C1_decode_failure.2.2.2.2.2.1 ⟨0, .WaitMsg2⟩ [⟨1, 0, []⟩] true [] engSgDemo
      "CBOR decode error" rfl (by decide) rfl,
   claim_C1_decode_failure.2.2.2.2.2.2 ⟨0, .WaitMsg3⟩ [⟨1, 0, []⟩] true [] engSgDemo
      "CBOR decode error" rfl (by decide) rfl⟩

/-- C8: the error translation gives the distinguished code 2 exactly to
the sign-protocol abort-and-ban-party failure class; keygen protocol
errors, all other sign protocol errors, and the boundary-validation
errors (bad digest length, bad derivation path, bad public-key size or
encoding, null handles) all carry the generic code 1. -/
theorem claim_C8_error_codes :
    (∀ p : Nat, (sign_error_to_go (.AbortProtocolAndBanParty p)).code = 2) ∧
    (∀ e : SignError, (sign_error_to_go e).code = 2 ↔
      ∃ p, e = .AbortProtocolAndBanParty p) ∧
    (∀ e : KeygenError, (keygen_error_to_go e).code = 1) ∧
    (∀ (hdl : SignSessionHandle) (hash : List Nat)
       (cps : PreSignature → List Nat → PartialSignature × SignMsg4),
      hash.length ≠ 32 →
      (dkls_sign_last_message (some hdl) hash cps).err =
        some (GoError.mk "invalid message hash" 1)) ∧
    (∀ (ks : Keyshare) (cp : String) (pp : String → Option DerivationPath)
       (sn : Bool) (sd : List Nat)
       (stn : RngOutcome → Keyshare → DerivationPath → Except Unit DsgState),
      pp cp = none →
      dkls_sign_new (some ks) (some cp) pp sn sd stn =
        .returns (none, some (GoError.mk "invalid derivation path" 1))) ∧
    (∀ (p t pid : Nat) (pk lost : List Nat) (sn : Bool) (sd : List Nat)
       (pfb : List Nat → Option AffinePoint)
       (kr : RefreshShare → RngOutcome → Except KeygenError DkgState),
      pk.length ≠ 33 →
      dkls_keygen_init_lost_share_recovery p t pid pk lost sn sd pfb kr =
        .returns (none, some (GoError.mk "invalid PK size" 1))) ∧
    (∀ (p t pid : Nat) (pk lost : List Nat) (sn : Bool) (sd : List Nat)
       (pfb : List Nat → Option AffinePoint)
       (kr : RefreshShare → RngOutcome → Except KeygenError DkgState),
      pk.length = 33 →
      maybe_seeded_rng (seed_arg sn sd) ≠ .seedPanic →
      pfb pk = none →
      dkls_keygen_init_lost_share_recovery p t pid pk lost sn sd pfb kr =
        .returns (none, some (GoError.mk "invalid PK" 1))) ∧
    (∀ eng : KeygenEngine, dkls_keygen_create_first_message none eng =
      ⟨none, some (GoError.mk "null handle" 1), none⟩) ∧
    (∀ eng : SignEngine, dkls_sign_create_first_message none eng =
      ⟨none, some (GoError.mk "null handle" 1), none⟩) := by
  refine ⟨fun p => rfl, fun e => ?_, fun e => rfl,
    fun hdl hash cps hl => ?_, fun ks cp pp sn sd stn hpp => ?_,
    fun p t pid pk lost sn sd pfb kr hpk => ?_,
    fun p t pid pk lost sn sd pfb kr hpk hrng hpfb => ?_,
    fun eng => rfl, fun eng => rfl⟩
  · cases e <;> simp [sign_error_to_go]
  · simp [dkls_sign_last_message, hl]
  · simp [dkls_sign_new, hpp]
  · simp [dkls_keygen_init_lost_share_recovery, hpk]
  · simp only [dkls_keygen_init_lost_share_recovery]
    rw [if_neg (by simp [hpk])]
    cases hg : maybe_seeded_rng (seed_arg sn sd) with
    | seedPanic => exact absurd hg hrng
    | seeded s => simp [hpfb]
    | secure => simp [hpfb]

/-- C8 (witness): the hypothesis-bearing boundary-error cases of the
error-code contract evaluated on concrete inputs. -/
theorem claim_C8_error_codes_witness :
    (dkls_sign_last_message (some ⟨0, .Init⟩) [0] cpsDemo).err =
      some (GoError.mk "invalid message hash" 1) ∧
    dkls_sign_new (some ⟨[], 0, [], 0⟩) (some "bad path") (fun _ => none) true []
        (fun _ _ _ => .ok 0) =
      .returns (none, some (GoError.mk "invalid derivation path" 1)) ∧
    dkls_keygen_init_lost_share_recovery 2 1 0 [] [] true [] (fun _ => none)
        (fun _ _ => .ok 0) =
      .returns (none, some (GoError.mk "invalid PK size" 1)) ∧
    dkls_keygen_init_lost_share_recovery 2 1 0 (List.replicate 33 0) [] true []
        (fun _ => none) (fun _ _ => .ok 0) =
      .returns (none, some (GoError.mk "invalid PK" 1)) :=
  ⟨claim_C8_error_codes.2.2.2.1 ⟨0, .Init⟩ [0] cpsDemo (by decide),
   claim_C8_error_codes.2.2.2.2.1 ⟨[], 0, [], 0⟩ "bad path" (fun _ => none) true []
     (fun _ _ _ => .ok 0) rfl,
   claim_C8_error_codes.2.2.2.2.2.1 2 1 0 [] [] true [] (fun _ => none)
     (fun _ _ => .ok 0) (by decide),
   claim_C8_error_codes.2.2.2.2.2.2.1 2 1 0 (List.replicate 33 0) [] true []
     (fun _ => none) (fun _ _ => .ok 0) (by decide) (by decide) rfl⟩

end Dkls
